import Mathlib

/-!
Verification of the weather-client program in `simple_prediction/forecast.py`.

The program is a thin client over a weather HTTP API.  `WeatherAPI` fetches
current weather: `_sending_request` builds a GET request from a params dict,
`_processing_response` extracts `main.temp`, `main.humidity`, `wind.speed`
with chained `.get` calls, `_get_weather` coerces them with `float()`/`int()`,
and `show_weather` prints one line.  `WeatherForecast` overrides the endpoint,
builds its URL by string interpolation (`_send_request`), and `get_forecast`
takes the first 5 entries of the response's `list`, converting each `dt`
timestamp to a "YYYY-MM-DD" date via `datetime.fromtimestamp(...).strftime`.

The embedding models the decoded JSON body as an explicit input (the HTTP
transport and JSON decoding are external collaborators), JSON numbers as exact
rationals, and Python's exception classes by an error enumeration.
-/

/-- A decoded JSON value, as produced by `response.json()`.  Numbers are
modelled as exact rationals (every JSON decimal is a rational; the claims
only involve numbers that are exactly representable). -/
inductive Json where
  | null : Json
  | num (q : ℚ) : Json
  | str (s : String) : Json
  | arr (xs : List Json) : Json
  | obj (fields : List (String × Json)) : Json

/-- A decoded JSON object body, i.e. a Python dict from string keys to
values, keeping insertion order.  Lookup is by first matching key. -/
abbrev JsonObj := List (String × Json)

/-- Association-list lookup: Python `dict` access by key (first match). -/
def jlookup : JsonObj → String → Option Json
  | [], _ => none
  | (k, v) :: rest, key => if k = key then some v else jlookup rest key

/-- The Python exception classes that the program's operations can raise.
`keyError` is the only `LookupError` subclass that occurs (there is no
integer indexing, so no `IndexError`). -/
inductive PyErr where
  | attributeError : PyErr
  | typeError : PyErr
  | valueError : PyErr
  | keyError : PyErr
  | overflowError : PyErr
  | transportError : PyErr
deriving DecidableEq

/-- Whether an exception is of `LookupError` class: in Python those are
exactly `KeyError` and `IndexError`; of the errors the program can raise,
only `KeyError` qualifies. -/
def PyErr.isLookupError : PyErr → Bool
  | .keyError => true
  | _ => false

/-- Whether a JSON value is a Python number (`int`/`float`), i.e. decoded
from a JSON number.  Used to state typing claims about untouched fields. -/
def Json.isNumber : Json → Bool
  | .num _ => true
  | _ => false

/-- Python `x.get(key)` where `x` is the result of a previous `.get`:
if `x` is a dict the inner lookup returns the value or `None`; any
non-dict (including `None` from a missing outer key) has no `.get`
attribute, so the call raises `AttributeError`. -/
def optGet (v : Option Json) (key : String) : Except PyErr (Option Json) :=
  match v with
  | some (Json.obj fields) => .ok (jlookup fields key)
  | _ => .error .attributeError

/-- Python `float(x)` on a decoded JSON value or `None`:
a number passes through unchanged (exact in this model), `None` and
non-scalar values raise `TypeError`.  `float` of a string parses decimal
syntax; no response field in the claims is a string, so string parsing is
collapsed to its failure case `ValueError` (the outcome for any
non-numeric string). -/
def pyFloat : Option Json → Except PyErr ℚ
  | some (.num q) => .ok q
  | some (.str _) => .error .valueError
  | _ => .error .typeError

/-- Python `int(x)` on a decoded JSON value or `None`: a number truncates
toward zero, `None` and non-scalar values raise `TypeError`; as in
`pyFloat`, the string case is collapsed to its non-numeric outcome. -/
def pyInt : Option Json → Except PyErr Int
  | some (.num q) => .ok (q.num.tdiv q.den)
  | some (.str _) => .error .valueError
  | _ => .error .typeError

/-- The record returned by `WeatherAPI._get_weather`:
`{"temperature": float(...), "humidity": int(...), "wind_speed": float(...)}`. -/
structure Snapshot where
  temperature : ℚ
  humidity : Int
  wind_speed : ℚ
deriving DecidableEq

/-- `WeatherAPI._processing_response` (forecast.py lines 42-45): extracts
`data.get("main").get("temp")`, `data.get("main").get("humidity")`,
`data.get("wind").get("speed")`, in that evaluation order.  Missing inner
keys yield `None`; a missing/non-dict `main` or `wind` raises
`AttributeError` at the chained `.get`. -/
def _processing_response (data : JsonObj) :
    Except PyErr (Option Json × Option Json × Option Json) := do
  let temp_c ← optGet (jlookup data "main") "temp"
  let humidity ← optGet (jlookup data "main") "humidity"
  let wind_mps ← optGet (jlookup data "wind") "speed"
  return (temp_c, humidity, wind_mps)

/-- `WeatherAPI._get_weather` (forecast.py lines 47-64) applied to the
decoded response body: processes the response, then builds the result dict,
coercing `float(temp_c)`, `int(humidity)`, `float(wind_mps)` in the
evaluation order of the dict literal. -/
def _get_weather (data : JsonObj) : Except PyErr Snapshot := do
  let (temp_c, humidity, wind_mps) ← _processing_response data
  let temperature ← pyFloat temp_c
  let humidityI ← pyInt humidity
  let wind_speed ← pyFloat wind_mps
  return { temperature := temperature, humidity := humidityI, wind_speed := wind_speed }

/-- The transport outcome of one request: either the decoded JSON body, or
a `TransportError`-class failure (network failure or non-decodable body),
raised by the `requests` library before any of the program's parsing runs. -/
abbrev TransportResult := Except PyErr JsonObj

/-- `WeatherAPI._get_weather` including the `_sending_request` call: a
transport failure propagates, otherwise the decoded body is processed. -/
def get_weather_of (tr : TransportResult) : Except PyErr Snapshot :=
  tr.bind _get_weather

/-- The line printed by `WeatherAPI.show_weather`.  Python renders the
floats with `repr`; the exact decimal rendering is irrelevant to every
claim, so numbers are rendered via Lean's `toString` on `ℚ`/`Int`. -/
def weatherLine (city : String) (w : Snapshot) : String :=
  "Температура в " ++ city ++ ": " ++ toString w.temperature ++ ">°C, влажность: " ++
    toString w.humidity ++ ">%, скорость ветра: " ++ toString w.wind_speed ++ "> м/с."

/-- `WeatherAPI.show_weather` (forecast.py lines 66-80): fetches the
weather, then prints a single line.  The result is the list of lines
written to standard output paired with the call's outcome; an uncaught
error from the fetch aborts the call before anything is printed. -/
def show_weather (city : String) (tr : TransportResult) :
    List String × Except PyErr Unit :=
  match get_weather_of tr with
  | .error e => ([], .error e)
  | .ok w => ([weatherLine city w], .ok ())

/-- The mutable per-client state set up by `WeatherAPI.__init__` /
`WeatherForecast.__init__`: the endpoint URL and the API key.  No method
of either class assigns to `self` after construction. -/
structure ClientState where
  url : String
  api_key : String
deriving DecidableEq

/-- The current-weather endpoint (`WeatherAPI.__init__`). -/
def weatherEndpoint : String := "https://api.openweathermap.org/data/2.5/weather"

/-- The forecast endpoint (`WeatherForecast.__init__` overwrites `self.url`). -/
def forecastEndpoint : String := "https://api.openweathermap.org/data/2.5/forecast"

/-- `WeatherAPI.__init__`. -/
def WeatherAPI_init (key : String) : ClientState :=
  { url := weatherEndpoint, api_key := key }

/-- `WeatherForecast.__init__`: runs the parent constructor, then replaces
the URL. -/
def WeatherForecast_init (key : String) : ClientState :=
  { WeatherAPI_init key with url := forecastEndpoint }

/-- `WeatherAPI._sending_request` as state-passing code: the method reads
`self.url`/`self.api_key`, performs the network call (whose decoded
outcome is the `tr` input) and mutates nothing, so the state is returned
unchanged.  The params dict, in insertion order, is
`{"appid": key, "q": city, "units": "metric"}` (line 28). -/
def _sending_request (s : ClientState) (_city : String) (tr : TransportResult) :
    ClientState × TransportResult :=
  (s, tr)

/-- A full `_get_weather` call on a client object: request then parse;
no field of `self` is written. -/
def get_weather_call (s : ClientState) (city : String) (tr : TransportResult) :
    ClientState × Except PyErr Snapshot :=
  let (s', tr') := _sending_request s city tr
  (s', get_weather_of tr')

/-- The query params dict built by `WeatherAPI._sending_request` (line 28),
in Python dict insertion order. -/
def sending_request_params (key city : String) : List (String × String) :=
  [("appid", key), ("q", city), ("units", "metric")]

/-! ### URL percent-encoding (the `requests`/`urllib` parameter encoding)

`requests.get(url, params=...)` encodes the params dict with
`urllib.parse.urlencode`: keys and values are quoted with `quote_plus`
(unreserved characters `A-Za-z0-9_.-~` pass through, space becomes `+`,
every other character becomes `%XX` per UTF-8 byte, uppercase hex), and
pairs are joined as `k=v` with `&`. -/

/-- Characters that `urllib.parse.quote_plus` leaves unencoded. -/
def unreservedChar (c : Char) : Bool :=
  c.isAlphanum || c = '-' || c = '.' || c = '_' || c = '~'

/-- Uppercase hex digit for a value below 16. -/
def hexDigitChar (n : Nat) : Char :=
  if n < 10 then Char.ofNat (48 + n) else Char.ofNat (55 + n)

/-- The UTF-8 bytes of a character, as natural numbers. -/
def utf8Bytes (c : Char) : List Nat :=
  let n := c.toNat
  if n < 128 then [n]
  else if n < 2048 then [192 + n / 64, 128 + n % 64]
  else if n < 65536 then [224 + n / 4096, 128 + n / 64 % 64, 128 + n % 64]
  else [240 + n / 262144, 128 + n / 4096 % 64, 128 + n / 64 % 64, 128 + n % 64]

/-- `quote_plus` on one character. -/
def quoteChar (c : Char) : List Char :=
  if unreservedChar c then [c]
  else if c = ' ' then ['+']
  else (utf8Bytes c).map (fun b => ['%', hexDigitChar (b / 16), hexDigitChar (b % 16)]) |>.flatten

/-- `quote_plus` on a string (as a character list). -/
def quoteList (l : List Char) : List Char :=
  l.flatMap quoteChar

/-- `urllib.parse.urlencode`: quote each key and value, join pairs with
`=` and `&`. -/
def urlencodePairs (ps : List (String × String)) : List Char :=
  ['&'].intercalate (ps.map fun p => quoteList p.1.data ++ '=' :: quoteList p.2.data)

/-- Whether a character is a hexadecimal digit. -/
def isHexChar (c : Char) : Bool :=
  c.isDigit || ('a' ≤ c && c ≤ 'f') || ('A' ≤ c && c ≤ 'F')

/-- Numeric value of a hex digit. -/
def hexVal (c : Char) : Nat :=
  if c.isDigit then c.toNat - 48
  else if 'a' ≤ c then c.toNat - 87 else c.toNat - 55

/-- Percent-decoding of a query component (`+` means space, `%XX` is a
byte; a stray `%` stands for itself).  Multi-byte UTF-8 sequences decode
byte-by-byte; every input the theorems evaluate is ASCII, where this is
exact. -/
def pdecode : List Char → List Char
  | [] => []
  | c :: rest =>
    if c = '+' then ' ' :: pdecode rest
    else if c = '%' then
      match rest with
      | h1 :: h2 :: rest2 =>
        if isHexChar h1 && isHexChar h2 then
          Char.ofNat (16 * hexVal h1 + hexVal h2) :: pdecode rest2
        else '%' :: pdecode (h1 :: h2 :: rest2)
      | [h1] => '%' :: pdecode [h1]
      | [] => ['%']
    else c :: pdecode rest

/-- The meaning of a raw query string: split on `&`, split each pair at
its first `=`, percent-decode both components. -/
def querySem (q : List Char) : List (List Char × List Char) :=
  (q.splitOn '&').map fun p =>
    (pdecode (p.takeWhile (· ≠ '=')), pdecode ((p.dropWhile (· ≠ '=')).tail))

/-- The query-string part of a URL: everything after the first `?`. -/
def queryOfUrl (u : String) : List Char :=
  ((u.data).dropWhile (· ≠ '?')).tail

/-- The semantics of the request `WeatherAPI._sending_request` issues:
the decoded key-value pairs of the query that `requests` sends for the
params dict of line 28. -/
def sending_request_sem (key city : String) : List (List Char × List Char) :=
  querySem (urlencodePairs (sending_request_params key city))

/-- `WeatherForecast._send_request` (line 100): the URL assembled by
f-string interpolation, with no escaping of `city` or the key. -/
def send_request_url (key city : String) : String :=
  forecastEndpoint ++ "?q=" ++ city ++ "&appid=" ++ key ++ "&units=metric"

/-- The semantics of the request `WeatherForecast._send_request` issues:
the decoded key-value pairs of the query part of the interpolated URL. -/
def send_request_sem (key city : String) : List (List Char × List Char) :=
  querySem (queryOfUrl (send_request_url key city))

/-- Two requests are semantically equivalent when they carry the same
multiset of decoded query parameters (order is presentation only). -/
def queryEquiv (a b : List (List Char × List Char)) : Prop :=
  a.Perm b

/-! ### The proleptic Gregorian calendar

`datetime.fromtimestamp(t)` interprets `t` in the local/system time zone
(modelled as a fixed offset `off` in seconds east of UTC), computes the
day number `⌊(t + off) / 86400⌋` relative to the Unix epoch, and converts
it to a calendar date; dates outside years 1..9999 raise
`OverflowError`/`ValueError`.  The day-to-date conversion is the standard
civil-calendar algorithm (the same function every C `localtime`
implements). -/

namespace Civil

/-- A calendar date: year, month, day. -/
abbrev Date := Int × Int × Int

/-- Leap-day adjusted day count used by the day-to-date conversion:
day-of-era minus the 4-year leap days plus the century corrections. -/
def adjDays (doe : Int) : Int :=
  doe - doe / 1460 + doe / 36524 - doe / 146096

/-- Day-of-era of the first day of year-of-era `y` (valid for `0 ≤ y ≤ 399`). -/
def yearStart (y : Int) : Int :=
  365 * y + y / 4 - y / 100

/-- Day-of-era one past the last day of year-of-era `y`: the start of the
next year, except that the last year of the 400-year era ends at day
146097 (the year divisible by 400 is leap). -/
def yearEnd (y : Int) : Int :=
  if y = 399 then 146097 else yearStart (y + 1)

/-- Month/day layout within a March-based year: from the day-of-year
`doy` (0 = March 1), compute the shifted month `mp`, the day of month,
and the civil month, then attach the year (civil years start in January,
so `mp ≥ 10` means January/February of the next civil year). -/
def ofYearDoy (y doy : Int) : Date :=
  let mp := (5 * doy + 2) / 153
  let d := doy - (153 * mp + 2) / 5 + 1
  let m := if mp < 10 then mp + 3 else mp - 9
  (if m ≤ 2 then y + 1 else y, m, d)

/-- The 400-year era containing day `z` (days counted from the epoch,
eras from 0000-03-01). -/
def eraOf (z : Int) : Int := (z + 719468) / 146097

/-- The day-of-era of day `z`, in `0..146096`. -/
def doeOf (z : Int) : Int := z + 719468 - 146097 * eraOf z

/-- Days-since-epoch (1970-01-01) to civil date, for any integer day
number: split into 400-year eras, find the year within the era by the
leap-adjusted division, then the month and day. -/
def civilFromDays (z : Int) : Date :=
  ofYearDoy (adjDays (doeOf z) / 365 + eraOf z * 400)
    (doeOf z - yearStart (adjDays (doeOf z) / 365))

/-- Civil date to days-since-epoch: the inverse conversion, written from
the calendar's definition (365-day years, leap day every 4th year except
centuries, plus every 400th year). -/
def daysFromCivil (c : Date) : Int :=
  let y := if c.2.1 ≤ 2 then c.1 - 1 else c.1
  let era := y / 400
  let yoe := y - 400 * era
  let doy := (153 * (if c.2.1 > 2 then c.2.1 - 3 else c.2.1 + 9) + 2) / 5 + c.2.2 - 1
  era * 146097 + (365 * yoe + yoe / 4 - yoe / 100 + doy) - 719468

/-- The per-year facts used in the conversion proof, checked for one
400-year era (`y` is the year-of-era). -/
def chkYear (y : Nat) : Bool :=
  decide (365 * (y : Int) ≤ adjDays (yearStart y) ∧
    adjDays (yearEnd y - 1) ≤ 365 * (y : Int) + 364 ∧
    yearStart (y : Int) + 365 ≤ yearEnd y ∧
    yearEnd (y : Int) ≤ yearStart y + 366 ∧
    0 ≤ yearStart (y : Int))

end Civil

/-- The decimal digit character for `n < 10`. -/
def digitChar10 (n : Nat) : Char := Char.ofNat (48 + n)

/-- `strftime` field `%Y`: the year, zero-padded to width 4.  (Callers
only ever pass years in 1..9999 — `fromtimestamp` raises on anything
else — so the truncation to the low four digits never engages.) -/
def fmt4 (n : Nat) : List Char :=
  [digitChar10 (n / 1000 % 10), digitChar10 (n / 100 % 10),
   digitChar10 (n / 10 % 10), digitChar10 (n % 10)]

/-- `strftime` fields `%m`/`%d`: zero-padded to width 2 (months are
1..12 and days 1..31, so the truncation to two digits never engages). -/
def fmt2 (n : Nat) : List Char :=
  [digitChar10 (n / 10 % 10), digitChar10 (n % 10)]

/-- `date.strftime("%Y-%m-%d")` on a valid date. -/
def dateFmt (c : Civil.Date) : String :=
  ⟨fmt4 c.1.toNat ++ '-' :: (fmt2 c.2.1.toNat ++ '-' :: fmt2 c.2.2.toNat)⟩

/-- Whether a string has the exact shape `YYYY-MM-DD`: ten characters,
digits except for dashes at positions 4 and 7. -/
def dateShaped (s : String) : Bool :=
  match s.data with
  | [y1, y2, y3, y4, s1, m1, m2, s2, d1, d2] =>
    y1.isDigit && y2.isDigit && y3.isDigit && y4.isDigit && s1 = '-' &&
      m1.isDigit && m2.isDigit && s2 = '-' && d1.isDigit && d2.isDigit
  | _ => false

/-- The day number (days since the epoch) of the local-time instant
`q + off`: the floor `⌊(q + off) / 86400⌋`, computed on the reduced
numerator and denominator of `q` (the denominator is positive, so integer
floor division of `num + off·den` by `86400·den` is that floor). -/
def dayOfTimestamp (off : Int) (q : ℚ) : Int :=
  (q.num + off * (q.den : Int)) / (86400 * (q.den : Int))

/-- `datetime.fromtimestamp(v)` restricted to the date it carries:
`v` must be a number (anything else raises `TypeError`), the timestamp is
shifted by the local-time-zone offset `off` (seconds east of UTC) and
floored to a day number, and dates outside years 1..9999 raise an
`OverflowError`-class condition, as CPython does. -/
def pyFromtimestamp (off : Int) (v : Json) : Except PyErr Civil.Date :=
  match v with
  | .num q =>
    let c := Civil.civilFromDays (dayOfTimestamp off q)
    if c.1 < 1 ∨ 9999 < c.1 then .error .overflowError else .ok c
  | _ => .error .typeError

/-- One element of the list returned by `WeatherForecast.get_forecast`:
the date string plus the three response values, copied unchanged (no
`float()`/`int()` coercion happens in `get_forecast`). -/
structure ForecastEntry where
  date : String
  temp : Json
  humidity : Json
  wind_speed : Json

/-- Python subscript `x[key]` on a decoded JSON value: a dict lookup
raises `KeyError` when the key is absent; subscripting any non-dict by a
string raises `TypeError`. -/
def pySubscript (v : Json) (key : String) : Except PyErr Json :=
  match v with
  | .obj fields =>
    match jlookup fields key with
    | some x => .ok x
    | none => .error .keyError
  | _ => .error .typeError

/-- The loop body of `WeatherForecast.get_forecast` (lines 119-132) for
one element of `list`: `forecast["dt"]` is converted first
(`datetime.fromtimestamp`, line 120), then `forecast["main"]["temp"]`,
`forecast["main"]["humidity"]`, `forecast["wind"]["speed"]` are read, and
the entry dict is built with the `strftime`-formatted date. -/
def convEntry (off : Int) (e : Json) : Except PyErr ForecastEntry := do
  let dtv ← pySubscript e "dt"
  let c ← pyFromtimestamp off dtv
  let mainv ← pySubscript e "main"
  let temp ← pySubscript mainv "temp"
  let humidity ← pySubscript mainv "humidity"
  let windv ← pySubscript e "wind"
  let wind_speed ← pySubscript windv "speed"
  return { date := dateFmt c, temp := temp, humidity := humidity, wind_speed := wind_speed }

/-- The `for` loop of `get_forecast`: convert each kept element in order,
aborting on the first uncaught error. -/
def convertList (off : Int) : List Json → Except PyErr (List ForecastEntry)
  | [] => .ok []
  | e :: es => do
    let r ← convEntry off e
    let rs ← convertList off es
    return r :: rs

/-- `WeatherForecast.get_forecast` (lines 104-134) applied to the decoded
response body: `data["list"]` (a `KeyError` when absent), sliced with
`[:5]` (slicing a non-sequence raises `TypeError`; slicing a string is
legal in Python but every non-empty one fails at `forecast["dt"]`, so only
the empty string yields a result, the empty list), then the conversion
loop. -/
def get_forecast (off : Int) (data : JsonObj) : Except PyErr (List ForecastEntry) := do
  let lst ← match jlookup data "list" with
    | some v => Except.ok v
    | none => Except.error PyErr.keyError
  let kept ← match lst with
    | .arr xs => Except.ok (xs.take 5)
    | .str s => if s.isEmpty then Except.ok [] else Except.error PyErr.typeError
    | _ => Except.error PyErr.typeError
  convertList off kept

/-- `get_forecast` including the `_send_request` call, with the transport
outcome explicit, as state-passing code (no field of `self` is written). -/
def get_forecast_call (off : Int) (s : ClientState) (_city : String) (tr : TransportResult) :
    ClientState × Except PyErr (List ForecastEntry) :=
  (s, tr.bind (get_forecast off))

/-- Two consecutive `_get_weather` calls on one client: the pair of
results, each produced from its own request's transport outcome. -/
def two_weather_calls (s : ClientState) (c1 c2 : String) (tr1 tr2 : TransportResult) :
    Except PyErr Snapshot × Except PyErr Snapshot :=
  let (s1, out1) := get_weather_call s c1 tr1
  let (_, out2) := get_weather_call s1 c2 tr2
  (out1, out2)

/-- Two consecutive `get_forecast` calls on one client: the pair of
results. -/
def two_forecast_calls (off : Int) (s : ClientState) (c1 c2 : String)
    (tr1 tr2 : TransportResult) :
    Except PyErr (List ForecastEntry) × Except PyErr (List ForecastEntry) :=
  let (s1, out1) := get_forecast_call off s c1 tr1
  let (_, out2) := get_forecast_call off s1 c2 tr2
  (out1, out2)

/-- `forecast["main"]["temp"]`-style raw double subscript, as `get_forecast`
performs it; the extracted value is stored without coercion. -/
def rawField (e : Json) (outer inner : String) : Except PyErr Json :=
  (pySubscript e outer).bind (fun v => pySubscript v inner)

/-- A forecast `list` element that is a dict in which the first field the
loop body touches in evaluation order and finds missing is a dict key:
`dt` absent, or (with a convertible `dt`) `main` absent, `main.temp` or
`main.humidity` absent, or (with those present) `wind` absent or
`wind.speed` absent.  Exactly these shapes make the loop body raise
`KeyError`. -/
def entryMissingKey (off : Int) (e : Json) : Bool :=
  match e with
  | .obj fs =>
    match jlookup fs "dt" with
    | none => true
    | some dtv =>
      (pyFromtimestamp off dtv).toOption.isSome &&
        (match jlookup fs "main" with
         | none => true
         | some (.obj m) =>
           (jlookup m "temp").isNone ||
             ((jlookup m "temp").isSome &&
               ((jlookup m "humidity").isNone ||
                 ((jlookup m "humidity").isSome &&
                   (match jlookup fs "wind" with
                    | none => true
                    | some (.obj wd) => (jlookup wd "speed").isNone
                    | some _ => false))))
         | some _ => false)
  | _ => false

/-- The well-formed current-weather response of the spec's example:
`main.temp = 21.5`, `main.humidity = 60`, `wind.speed = 3.2`. -/
def weatherResponse : JsonObj :=
  [("main", Json.obj [("temp", Json.num 21.5), ("humidity", Json.num 60)]),
   ("wind", Json.obj [("speed", Json.num 3.2)])]

/-- A current-weather response with no `main` member at all. -/
def weatherNoMain : JsonObj :=
  [("wind", Json.obj [("speed", Json.num 3)])]

/-- A current-weather response whose `main` dict lacks `temp`. -/
def weatherNoTemp : JsonObj :=
  [("main", Json.obj [("humidity", Json.num 60)]),
   ("wind", Json.obj [("speed", Json.num 3)])]

/-- A current-weather response whose `main` dict lacks `humidity`. -/
def weatherNoHumidity : JsonObj :=
  [("main", Json.obj [("temp", Json.num 20)]),
   ("wind", Json.obj [("speed", Json.num 3)])]

/-- A current-weather response whose `wind` dict lacks `speed`. -/
def weatherNoSpeed : JsonObj :=
  [("main", Json.obj [("temp", Json.num 20), ("humidity", Json.num 60)]),
   ("wind", Json.obj [])]

/-- A current-weather response with no `wind` member at all. -/
def weatherNoWind : JsonObj :=
  [("main", Json.obj [("temp", Json.num 20), ("humidity", Json.num 60)])]

/-- A well-formed forecast `list` element with the given timestamp,
temperature, humidity and wind speed. -/
def forecastEntryJson (dt : Int) (t hu wv : ℚ) : Json :=
  Json.obj [("dt", Json.num (dt : ℚ)),
    ("main", Json.obj [("temp", Json.num t), ("humidity", Json.num hu)]),
    ("wind", Json.obj [("speed", Json.num wv)])]

/-- Eight well-formed forecast entries, one per day from 2024-09-10. -/
def forecastEntries8 : List Json :=
  [forecastEntryJson 1726000000 20 50 3, forecastEntryJson 1726086400 21 51 4,
   forecastEntryJson 1726172800 22 52 5, forecastEntryJson 1726259200 23 53 6,
   forecastEntryJson 1726345600 24 54 7, forecastEntryJson 1726432000 25 55 8,
   forecastEntryJson 1726518400 26 56 9, forecastEntryJson 1726604800 27 57 10]

/-- A forecast response whose `list` has the eight entries above. -/
def forecastResponse8 : JsonObj := [("list", Json.arr forecastEntries8)]

/-- The value `get_forecast` returns on `forecastResponse8`. -/
def forecastOut8 : List ForecastEntry :=
  (get_forecast 0 forecastResponse8).toOption.getD []

/-- Three well-formed forecast entries (a `list` shorter than 5). -/
def forecastEntries3 : List Json :=
  [forecastEntryJson 1726000000 20 50 3, forecastEntryJson 1726086400 21 51 4,
   forecastEntryJson 1726172800 22 52 5]

/-- A forecast response whose `list` has only the three entries above. -/
def forecastResponse3 : JsonObj := [("list", Json.arr forecastEntries3)]

/-- A forecast response whose single entry carries a string where the
spec expects the `temp` number; `get_forecast` copies it through. -/
def forecastStrTemp : JsonObj :=
  [("list", Json.arr [Json.obj [("dt", Json.num ((1726000000 : Int) : ℚ)),
    ("main", Json.obj [("temp", Json.str "hot"), ("humidity", Json.num 50)]),
    ("wind", Json.obj [("speed", Json.num 3)])]])]

/-- A well-formed forecast entry dict with an integer `dt`. -/
def c7fields : JsonObj :=
  [("dt", Json.num ((1726000000 : Int) : ℚ)),
   ("main", Json.obj [("temp", Json.num 20), ("humidity", Json.num 50)]),
   ("wind", Json.obj [("speed", Json.num 3)])]

/-- The entry the loop body produces from `c7fields`. -/
def c7out : ForecastEntry :=
  (convEntry 0 (Json.obj c7fields)).toOption.getD ⟨"", Json.null, Json.null, Json.null⟩

/-- A well-formed forecast entry used as the prefix of a malformed list. -/
def c4goodEntry : Json := forecastEntryJson 1726000000 20 50 3

/-- A forecast entry dict with no `dt` key. -/
def c4badEntry : Json :=
  Json.obj [("main", Json.obj [("temp", Json.num 20), ("humidity", Json.num 50)]),
    ("wind", Json.obj [("speed", Json.num 3)])]

/-- A forecast response whose second entry lacks `dt`. -/
def c4response : JsonObj := [("list", Json.arr [c4goodEntry, c4badEntry])]

/-- The entry the loop body produces from `c4goodEntry`. -/
def c4goodOut : ForecastEntry :=
  (convEntry 0 c4goodEntry).toOption.getD ⟨"", Json.null, Json.null, Json.null⟩
namespace Civil

set_option maxRecDepth 4000 in
theorem chkYear_all : ∀ y : Nat, y < 400 → chkYear y = true := by decide

theorem yearFacts (y : Int) (h0 : 0 ≤ y) (h1 : y ≤ 399) :
    365 * y ≤ adjDays (yearStart y) ∧ adjDays (yearEnd y - 1) ≤ 365 * y + 364 ∧
    yearStart y + 365 ≤ yearEnd y ∧ yearEnd y ≤ yearStart y + 366 ∧ 0 ≤ yearStart y := by
  have h := chkYear_all y.toNat (by omega)
  unfold chkYear at h
  rw [decide_eq_true_eq] at h
  rwa [Int.toNat_of_nonneg h0] at h

theorem adjDays_mono (a b : Int) (hab : a ≤ b) : adjDays a ≤ adjDays b := by
  refine Int.le_induction (P := fun b => adjDays a ≤ adjDays b) ?_ ?_ b hab
  · exact le_refl _
  · intro n _ ih
    have step : adjDays n ≤ adjDays (n + 1) := by unfold adjDays; omega
    exact le_trans ih step

theorem window_exists : ∀ doe : Int, 0 ≤ doe → doe ≤ 146096 →
    ∃ y, 0 ≤ y ∧ y ≤ 399 ∧ yearStart y ≤ doe ∧ doe < yearEnd y := by
  intro doe h0
  refine Int.le_induction
    (P := fun doe => doe ≤ 146096 → ∃ y, 0 ≤ y ∧ y ≤ 399 ∧ yearStart y ≤ doe ∧ doe < yearEnd y)
    ?_ ?_ doe h0
  · intro _
    refine ⟨0, le_refl _, by norm_num, ?_, ?_⟩
    · show yearStart 0 ≤ 0
      norm_num [yearStart]
    · show (0 : Int) < yearEnd 0
      norm_num [yearEnd, yearStart]
  · intro n hn ih hle
    obtain ⟨y, hy0, hy1, hlo, hhi⟩ := ih (by omega)
    by_cases hcase : n + 1 < yearEnd y
    · exact ⟨y, hy0, hy1, by omega, hcase⟩
    · have hy399 : y ≠ 399 := by
        intro h
        subst h
        have : yearEnd 399 = 146097 := by norm_num [yearEnd]
        omega
      have hyE : yearEnd y = yearStart (y + 1) := by
        simp [yearEnd, hy399]
      have hf := yearFacts (y + 1) (by omega) (by omega)
      exact ⟨y + 1, by omega, by omega, by omega, by omega⟩

theorem yoe_correct (doe : Int) (h0 : 0 ≤ doe) (h1 : doe ≤ 146096) :
    ∃ y, adjDays doe / 365 = y ∧ 0 ≤ y ∧ y ≤ 399 ∧ yearStart y ≤ doe ∧
      0 ≤ doe - yearStart y ∧ doe - yearStart y ≤ 365 := by
  obtain ⟨y, hy0, hy1, hlo, hhi⟩ := window_exists doe h0 h1
  have hf := yearFacts y hy0 hy1
  have hA : 365 * y ≤ adjDays doe := le_trans hf.1 (adjDays_mono _ _ hlo)
  have hB : adjDays doe ≤ 365 * y + 364 :=
    le_trans (adjDays_mono _ _ (by omega : doe ≤ yearEnd y - 1)) hf.2.1
  refine ⟨y, by omega, hy0, hy1, hlo, by omega, by omega⟩

theorem daysFromCivil_ofYearDoy (era yoe doy : Int)
    (hy0 : 0 ≤ yoe) (hy1 : yoe ≤ 399) (hd0 : 0 ≤ doy) (hd1 : doy ≤ 365) :
    daysFromCivil (ofYearDoy (yoe + era * 400) doy) =
      146097 * era + (365 * yoe + yoe / 4 - yoe / 100 + doy) - 719468 := by
  unfold ofYearDoy daysFromCivil
  split_ifs <;> simp_all <;> omega

theorem daysFromCivil_civilFromDays (z : Int) :
    daysFromCivil (civilFromDays z) = z := by
  have hb : 0 ≤ doeOf z ∧ doeOf z ≤ 146096 := by
    unfold doeOf eraOf
    omega
  obtain ⟨y, hyeq, hy0, hy1, hlo, hdoy0, hdoy1⟩ := yoe_correct (doeOf z) hb.1 hb.2
  unfold civilFromDays
  rw [hyeq]
  rw [daysFromCivil_ofYearDoy (eraOf z) y (doeOf z - yearStart y) hy0 hy1 hdoy0 hdoy1]
  unfold yearStart doeOf eraOf
  omega

end Civil

/-- `dayOfTimestamp` is the floor of `(q + off) / 86400`, the day number
`fromtimestamp` uses. -/
theorem dayOfTimestamp_eq_floor (off : Int) (q : ℚ) :
    dayOfTimestamp off q = ⌊(q + (off : ℚ)) / 86400⌋ := by
  unfold dayOfTimestamp
  have hden : (0 : ℚ) < (q.den : ℚ) := by
    exact_mod_cast q.pos
  have hq : q * (q.den : ℚ) = (q.num : ℚ) := by
    conv_lhs => rw [← Rat.num_div_den q]
    field_simp
    exact Or.inl (by rw [Rat.num_div_den q])
  have h : (q + (off : ℚ)) / 86400 =
      ((q.num + off * (q.den : Int) : Int) : ℚ) / ((86400 * q.den : ℕ) : ℚ) := by
    rw [div_eq_div_iff (by norm_num) (by positivity)]
    push_cast
    nlinarith [hq]
  rw [h, Rat.floor_intCast_div_natCast]
  push_cast
  norm_num

theorem quoteChar_unreserved (c : Char) (h : unreservedChar c = true) : quoteChar c = [c] := by
  unfold quoteChar
  rw [if_pos h]

theorem quoteList_id (l : List Char) (h : ∀ c ∈ l, unreservedChar c = true) :
    quoteList l = l := by
  induction l with
  | nil => rfl
  | cons c rest ih =>
    simp only [quoteList, List.flatMap_cons] at *
    rw [quoteChar_unreserved c (h c (by simp))]
    simp only [List.cons_append, List.nil_append, List.cons.injEq, true_and]
    exact ih fun x hx => h x (by simp [hx])

theorem unreserved_ne_amp (c : Char) (h : unreservedChar c = true) : c ≠ '&' := by
  intro he
  subst he
  exact absurd h (by decide)

theorem unreserved_ne_pct (c : Char) (h : unreservedChar c = true) : c ≠ '%' := by
  intro he
  subst he
  exact absurd h (by decide)

theorem unreserved_ne_plus (c : Char) (h : unreservedChar c = true) : c ≠ '+' := by
  intro he
  subst he
  exact absurd h (by decide)

theorem pdecode_id (l : List Char) (h : ∀ c ∈ l, c ≠ '%' ∧ c ≠ '+') : pdecode l = l := by
  induction l with
  | nil => rfl
  | cons c rest ih =>
    have hc := h c (by simp)
    unfold pdecode
    rw [if_neg hc.2, if_neg hc.1]
    exact congrArg (c :: ·) (ih fun x hx => h x (by simp [hx]))

theorem splitKV_append (k v : List Char) (h : ∀ c ∈ k, c ≠ '=') :
    (k ++ '=' :: v).takeWhile (· ≠ '=') = k ∧
      ((k ++ '=' :: v).dropWhile (· ≠ '=')).tail = v := by
  induction k with
  | nil => exact ⟨by simp [List.takeWhile_cons], by simp [List.dropWhile_cons]⟩
  | cons a rest ih =>
    have ha : a ≠ '=' := h a (by simp)
    have hrest := ih fun x hx => h x (by simp [hx])
    constructor
    · simpa [List.takeWhile_cons, ha] using hrest.1
    · simpa [List.dropWhile_cons, ha] using hrest.2

theorem dropWhile_query (a b : List Char) (h : ∀ c ∈ a, c ≠ '?') :
    ((a ++ '?' :: b).dropWhile (· ≠ '?')).tail = b := by
  induction a with
  | nil => simp [List.dropWhile_cons]
  | cons x rest ih =>
    have hx : x ≠ '?' := h x (by simp)
    have := ih fun c hc => h c (by simp [hc])
    simpa [List.dropWhile_cons, hx] using this

theorem intercalate_three (a b c : List Char) :
    ['&'].intercalate [a, b, c] = a ++ '&' :: (b ++ '&' :: c) := by
  simp [List.intercalate, List.intersperse]

theorem splitOn_three (a b c : List Char) (ha : '&' ∉ a) (hb : '&' ∉ b) (hc : '&' ∉ c) :
    (a ++ '&' :: (b ++ '&' :: c)).splitOn '&' = [a, b, c] := by
  rw [← intercalate_three]
  refine List.splitOn_intercalate [a, b, c] '&' ?_ (by simp)
  intro l hl
  simp only [List.mem_cons, List.not_mem_nil, or_false] at hl
  rcases hl with h | h | h <;> subst h <;> assumption

theorem parent_sem_unreserved (key city : String)
    (hk : ∀ c ∈ key.data, unreservedChar c = true)
    (hc : ∀ c ∈ city.data, unreservedChar c = true) :
    sending_request_sem key city =
      [("appid".data, key.data), ("q".data, city.data), ("units".data, "metric".data)] := by
  have hpm : ∀ (s : String), (∀ c ∈ s.data, unreservedChar c = true) →
      pdecode s.data = s.data := by
    intro s hs
    exact pdecode_id _ fun c hcs => ⟨unreserved_ne_pct _ (hs c hcs), unreserved_ne_plus _ (hs c hcs)⟩
  have hA : '&' ∉ "appid".data ++ '=' :: key.data := by
    simp only [List.mem_append, List.mem_cons, not_or]
    refine ⟨by decide, by decide, ?_⟩
    intro h
    exact unreserved_ne_amp _ (hk _ h) rfl
  have hB : '&' ∉ "q".data ++ '=' :: city.data := by
    simp only [List.mem_append, List.mem_cons, not_or]
    refine ⟨by decide, by decide, ?_⟩
    intro h
    exact unreserved_ne_amp _ (hc _ h) rfl
  have hC : '&' ∉ "units".data ++ '=' :: "metric".data := by decide
  unfold sending_request_sem urlencodePairs sending_request_params querySem
  simp only [List.map_cons, List.map_nil]
  rw [quoteList_id "appid".data (by decide), quoteList_id key.data hk,
      quoteList_id "q".data (by decide), quoteList_id city.data hc,
      quoteList_id "units".data (by decide), quoteList_id "metric".data (by decide),
      intercalate_three, splitOn_three _ _ _ hA hB hC]
  simp only [List.map_cons, List.map_nil]
  rw [(splitKV_append "appid".data key.data (by decide)).1,
      (splitKV_append "appid".data key.data (by decide)).2,
      (splitKV_append "q".data city.data (by decide)).1,
      (splitKV_append "q".data city.data (by decide)).2,
      (splitKV_append "units".data "metric".data (by decide)).1,
      (splitKV_append "units".data "metric".data (by decide)).2]
  rw [hpm key hk, hpm city hc]
  rfl

theorem child_sem_unreserved (key city : String)
    (hk : ∀ c ∈ key.data, unreservedChar c = true)
    (hc : ∀ c ∈ city.data, unreservedChar c = true) :
    send_request_sem key city =
      [("q".data, city.data), ("appid".data, key.data), ("units".data, "metric".data)] := by
  have hpm : ∀ (s : String), (∀ c ∈ s.data, unreservedChar c = true) →
      pdecode s.data = s.data := by
    intro s hs
    exact pdecode_id _ fun c hcs => ⟨unreserved_ne_pct _ (hs c hcs), unreserved_ne_plus _ (hs c hcs)⟩
  have hq : ∀ c ∈ forecastEndpoint.data, c ≠ '?' := by decide
  have l1 : "?q=".data = ['?', 'q', '='] := rfl
  have l2 : "&appid=".data = ['&', 'a', 'p', 'p', 'i', 'd', '='] := rfl
  have l3 : "&units=metric".data = ['&', 'u', 'n', 'i', 't', 's', '=', 'm', 'e', 't', 'r', 'i', 'c'] := rfl
  have hurl : (send_request_url key city).data =
      forecastEndpoint.data ++ '?' ::
        ("q".data ++ '=' :: city.data ++ '&' ::
          ("appid".data ++ '=' :: key.data ++ '&' :: ("units".data ++ '=' :: "metric".data))) := by
    unfold send_request_url
    simp only [String.data_append, l1, l2, l3, List.append_assoc, List.cons_append]
    rfl
  have hq2 : queryOfUrl (send_request_url key city) =
      "q".data ++ '=' :: city.data ++ '&' ::
        ("appid".data ++ '=' :: key.data ++ '&' :: ("units".data ++ '=' :: "metric".data)) := by
    unfold queryOfUrl
    rw [hurl]
    exact dropWhile_query _ _ hq
  have hB1 : '&' ∉ "q".data ++ '=' :: city.data := by
    simp only [List.mem_append, List.mem_cons, not_or]
    refine ⟨by decide, by decide, ?_⟩
    intro h
    exact unreserved_ne_amp _ (hc _ h) rfl
  have hB2 : '&' ∉ "appid".data ++ '=' :: key.data := by
    simp only [List.mem_append, List.mem_cons, not_or]
    refine ⟨by decide, by decide, ?_⟩
    intro h
    exact unreserved_ne_amp _ (hk _ h) rfl
  have hB3 : '&' ∉ "units".data ++ '=' :: "metric".data := by decide
  unfold send_request_sem querySem
  rw [hq2]
  rw [show "q".data ++ '=' :: city.data ++ '&' ::
        ("appid".data ++ '=' :: key.data ++ '&' :: ("units".data ++ '=' :: "metric".data)) =
      ("q".data ++ '=' :: city.data) ++ '&' ::
        (("appid".data ++ '=' :: key.data) ++ '&' :: ("units".data ++ '=' :: "metric".data)) by
    simp [List.append_assoc]]
  rw [splitOn_three _ _ _ hB1 hB2 hB3]
  simp only [List.map_cons, List.map_nil]
  rw [(splitKV_append "q".data city.data (by decide)).1,
      (splitKV_append "q".data city.data (by decide)).2,
      (splitKV_append "appid".data key.data (by decide)).1,
      (splitKV_append "appid".data key.data (by decide)).2,
      (splitKV_append "units".data "metric".data (by decide)).1,
      (splitKV_append "units".data "metric".data (by decide)).2]
  rw [hpm key hk, hpm city hc]
  rfl

/-- C5 (counterexample): the claim fails as stated.  For the city string
"a&b" the parent client sends the percent-encoded parameter `q=a%26b`,
while the forecast client interpolates the raw text, producing a query
that parses as `q=a` plus a spurious parameter `b`; the two requests are
not semantically equivalent. -/
theorem c5_counterexample :
    ¬ queryEquiv (sending_request_sem "KEY" "a&b") (send_request_sem "KEY" "a&b") := by
  intro h
  have hl := h.length_eq
  revert hl
  decide

/-- C5 (amended): for every city string and API key consisting only of
characters that need no percent-encoding (letters, digits, `-._~`), the
request built by `WeatherForecast._send_request` by string interpolation
is semantically equivalent to the request `WeatherAPI._sending_request`
builds via the params dict: the decoded query parameters are the same
multiset, differing only in order.  For other city strings the two can
differ (see the counterexample). -/
theorem c5_amended (key city : String)
    (hk : ∀ c ∈ key.data, unreservedChar c = true)
    (hc : ∀ c ∈ city.data, unreservedChar c = true) :
    queryEquiv (sending_request_sem key city) (send_request_sem key city) := by
  rw [queryEquiv, parent_sem_unreserved key city hk hc, child_sem_unreserved key city hk hc]
  exact List.Perm.swap _ _ _

/-- C5 (witness): the amended equivalence instantiated at the key
"APIKEY123" and the city "Odessa". -/
theorem c5_witness :
    (∀ c ∈ "APIKEY123".data, unreservedChar c = true) ∧
    (∀ c ∈ "Odessa".data, unreservedChar c = true) ∧
    queryEquiv (sending_request_sem "APIKEY123" "Odessa") (send_request_sem "APIKEY123" "Odessa") :=
  ⟨by decide, by decide, c5_amended "APIKEY123" "Odessa" (by decide) (by decide)⟩

theorem optGet_error (v : Option Json) (k : String) (e : PyErr)
    (h : optGet v k = .error e) : e = .attributeError := by
  unfold optGet at h
  split at h
  · exact absurd h (by simp)
  · simpa using h.symm

theorem optGet_ok (v : Option Json) (k : String) (r : Option Json)
    (h : optGet v k = .ok r) : ∃ fs, v = some (Json.obj fs) ∧ r = jlookup fs k := by
  cases v with
  | none => simp [optGet] at h
  | some j =>
    cases j with
    | obj fs => exact ⟨fs, rfl, by simpa [optGet] using h.symm⟩
    | null => simp [optGet] at h
    | num q => simp [optGet] at h
    | str s => simp [optGet] at h
    | arr xs => simp [optGet] at h

theorem pyFloat_error (v : Option Json) (e : PyErr)
    (h : pyFloat v = .error e) : e = .typeError ∨ e = .valueError := by
  unfold pyFloat at h
  split at h <;> simp_all

theorem pyFloat_ok (v : Option Json) (q : ℚ)
    (h : pyFloat v = .ok q) : v = some (Json.num q) := by
  unfold pyFloat at h
  split at h <;> simp_all

theorem pyInt_error (v : Option Json) (e : PyErr)
    (h : pyInt v = .error e) : e = .typeError ∨ e = .valueError := by
  unfold pyInt at h
  split at h <;> simp_all

theorem pyInt_ok (v : Option Json) (n : Int)
    (h : pyInt v = .ok n) : v.isSome = true := by
  unfold pyInt at h
  split at h <;> simp_all

theorem processing_error (d : JsonObj) (e : PyErr)
    (h : _processing_response d = .error e) : e = .attributeError := by
  unfold _processing_response at h
  simp only [bind, Except.bind, pure, Except.pure] at h
  cases h1 : optGet (jlookup d "main") "temp" with
  | error e1 =>
    rw [h1] at h
    simp only [Except.error.injEq] at h
    subst h
    exact optGet_error _ _ _ h1
  | ok t =>
    rw [h1] at h
    dsimp only at h
    cases h2 : optGet (jlookup d "main") "humidity" with
    | error e2 =>
      rw [h2] at h
      simp only [Except.error.injEq] at h
      subst h
      exact optGet_error _ _ _ h2
    | ok hm =>
      rw [h2] at h
      dsimp only at h
      cases h3 : optGet (jlookup d "wind") "speed" with
      | error e3 =>
        rw [h3] at h
        simp only [Except.error.injEq] at h
        subst h
        exact optGet_error _ _ _ h3
      | ok w =>
        rw [h3] at h
        simp at h

theorem processing_ok (d : JsonObj) (t hm w : Option Json)
    (h : _processing_response d = .ok (t, hm, w)) :
    ∃ m wd, jlookup d "main" = some (Json.obj m) ∧ jlookup d "wind" = some (Json.obj wd) ∧
      t = jlookup m "temp" ∧ hm = jlookup m "humidity" ∧ w = jlookup wd "speed" := by
  unfold _processing_response at h
  simp only [bind, Except.bind, pure, Except.pure] at h
  cases h1 : optGet (jlookup d "main") "temp" with
  | error e1 => rw [h1] at h; simp at h
  | ok t1 =>
    rw [h1] at h
    dsimp only at h
    cases h2 : optGet (jlookup d "main") "humidity" with
    | error e2 => rw [h2] at h; simp at h
    | ok hm1 =>
      rw [h2] at h
      dsimp only at h
      cases h3 : optGet (jlookup d "wind") "speed" with
      | error e3 => rw [h3] at h; simp at h
      | ok w1 =>
        rw [h3] at h
        simp only [Except.ok.injEq, Prod.mk.injEq] at h
        obtain ⟨he1, he2, he3⟩ := h
        subst he1; subst he2; subst he3
        obtain ⟨m1, hv1, hr1⟩ := optGet_ok _ _ _ h1
        obtain ⟨m2, hv2, hr2⟩ := optGet_ok _ _ _ h2
        obtain ⟨wd1, hv3, hr3⟩ := optGet_ok _ _ _ h3
        rw [hv1] at hv2
        simp only [Option.some.injEq, Json.obj.injEq] at hv2
        subst hv2
        exact ⟨m1, wd1, hv1, hv3, hr1, hr2, hr3⟩

theorem get_weather_error_class (d : JsonObj) (e : PyErr)
    (h : _get_weather d = .error e) : e.isLookupError = false := by
  unfold _get_weather at h
  simp only [bind, Except.bind, pure, Except.pure] at h
  cases hp : _processing_response d with
  | error e1 =>
    rw [hp] at h
    simp only [Except.error.injEq] at h
    subst h
    rw [processing_error d e1 hp]
    rfl
  | ok trip =>
    obtain ⟨t, hm, w⟩ := trip
    rw [hp] at h
    dsimp only at h
    cases h1 : pyFloat t with
    | error e1 =>
      rw [h1] at h
      simp only [Except.error.injEq] at h
      subst h
      rcases pyFloat_error _ _ h1 with h' | h' <;> rw [h'] <;> rfl
    | ok q1 =>
      rw [h1] at h
      dsimp only at h
      cases h2 : pyInt hm with
      | error e2 =>
        rw [h2] at h
        simp only [Except.error.injEq] at h
        subst h
        rcases pyInt_error _ _ h2 with h' | h' <;> rw [h'] <;> rfl
      | ok n =>
        rw [h2] at h
        dsimp only at h
        cases h3 : pyFloat w with
        | error e3 =>
          rw [h3] at h
          simp only [Except.error.injEq] at h
          subst h
          rcases pyFloat_error _ _ h3 with h' | h' <;> rw [h'] <;> rfl
        | ok q2 =>
          rw [h3] at h
          simp at h

theorem get_weather_ok_shape (d : JsonObj) (w : Snapshot)
    (h : _get_weather d = .ok w) :
    ∃ m wd, jlookup d "main" = some (Json.obj m) ∧ jlookup d "wind" = some (Json.obj wd) ∧
      (jlookup m "temp").isSome = true ∧ (jlookup m "humidity").isSome = true ∧
      (jlookup wd "speed").isSome = true := by
  unfold _get_weather at h
  simp only [bind, Except.bind, pure, Except.pure] at h
  cases hp : _processing_response d with
  | error e1 => rw [hp] at h; simp at h
  | ok trip =>
    obtain ⟨t, hm, wv⟩ := trip
    rw [hp] at h
    dsimp only at h
    cases h1 : pyFloat t with
    | error e1 => rw [h1] at h; simp at h
    | ok q1 =>
      rw [h1] at h
      dsimp only at h
      cases h2 : pyInt hm with
      | error e2 => rw [h2] at h; simp at h
      | ok n =>
        rw [h2] at h
        dsimp only at h
        cases h3 : pyFloat wv with
        | error e3 => rw [h3] at h; simp at h
        | ok q2 =>
          obtain ⟨m, wd, hmain, hwind, ht, hh, hs⟩ := processing_ok d t hm wv hp
          refine ⟨m, wd, hmain, hwind, ?_, ?_, ?_⟩
          · rw [← ht, pyFloat_ok _ _ h1]; rfl
          · rw [← hh]; exact pyInt_ok _ _ h2
          · rw [← hs, pyFloat_ok _ _ h3]; rfl

/-- C3: for a well-formed current-weather response with
`main.temp = 21.5`, `main.humidity = 60`, `wind.speed = 3.2`,
`_get_weather` returns the record
`{temperature := 21.5, humidity := 60, wind_speed := 3.2}`, the
temperature and wind speed as (exact) floating-point values and the
humidity coerced to an integer. -/
theorem c3_snapshot :
    _get_weather weatherResponse =
      .ok { temperature := 21.5, humidity := 60, wind_speed := 3.2 } := by
  rfl

/-- C1 (counterexample): the claim fails as stated.  On a response with
no `main` member, `_get_weather` fails with an `AttributeError`-class
condition (the chained `.get` on `None`), which is not a
`LookupError`-class condition. -/
theorem c1_counterexample :
    _get_weather weatherNoMain = .error .attributeError ∧
      PyErr.attributeError.isLookupError = false :=
  ⟨rfl, rfl⟩

/-- C1 (amended): whenever an expected field (`main`, `main.temp`,
`main.humidity`, `wind`, or `wind.speed`) is absent, `_get_weather`
fails — it never returns a partially-populated record — but the failure
is an `AttributeError`/`TypeError`-class condition, never a
`LookupError`-class one: no error `_get_weather` can raise is of
`LookupError` class. -/
theorem c1_amended :
    (∀ (d : JsonObj) (e : PyErr), _get_weather d = .error e → e.isLookupError = false) ∧
    (∀ d : JsonObj,
      (jlookup d "main" = none ∨
        (∃ m, jlookup d "main" = some (Json.obj m) ∧
          (jlookup m "temp" = none ∨ jlookup m "humidity" = none)) ∨
        jlookup d "wind" = none ∨
        (∃ wd, jlookup d "wind" = some (Json.obj wd) ∧ jlookup wd "speed" = none)) →
      ∃ e, _get_weather d = .error e ∧ e.isLookupError = false) := by
  refine ⟨get_weather_error_class, ?_⟩
  intro d habs
  cases hg : _get_weather d with
  | error e => exact ⟨e, rfl, get_weather_error_class d e hg⟩
  | ok w =>
    exfalso
    obtain ⟨m, wd, hmain, hwind, ht, hh, hs⟩ := get_weather_ok_shape d w hg
    rcases habs with h | ⟨m', hm', hcase⟩ | h | ⟨wd', hw', hcase⟩
    · rw [h] at hmain; exact absurd hmain (by simp)
    · rw [hm'] at hmain
      simp only [Option.some.injEq, Json.obj.injEq] at hmain
      subst hmain
      rcases hcase with h' | h'
      · rw [h'] at ht; exact absurd ht (by simp)
      · rw [h'] at hh; exact absurd hh (by simp)
    · rw [h] at hwind; exact absurd hwind (by simp)
    · rw [hw'] at hwind
      simp only [Option.some.injEq, Json.obj.injEq] at hwind
      subst hwind
      rw [hcase] at hs
      exact absurd hs (by simp)

/-- C1 (witness): the amended statement instantiated at a response with
no `main` member and at one whose `main` lacks `temp`. -/
theorem c1_witness :
    (_get_weather weatherNoMain = .error .attributeError →
      PyErr.attributeError.isLookupError = false) ∧
    (∃ e, _get_weather weatherNoTemp = .error e ∧ e.isLookupError = false) :=
  ⟨fun h => c1_amended.1 weatherNoMain _ h,
   c1_amended.2 weatherNoTemp (Or.inr (Or.inl ⟨_, rfl, Or.inl rfl⟩))⟩

/-- C10: in `_get_weather`, if `main` (or `wind`) is present as a dict
but an inner key (`temp`, `humidity`, or `speed`) is absent, the chained
`.get` extraction yields `None` for that field and the `float()`/`int()`
coercion fails with a `TypeError`-class condition; whereas if `main` (or
`wind`) itself is absent, the chained `.get` on `None` fails with an
`AttributeError`-class condition. -/
theorem c10_inner_missing :
    (∀ d : JsonObj, jlookup d "main" = none → _get_weather d = .error .attributeError) ∧
    (∀ (d : JsonObj) (m : List (String × Json)),
      jlookup d "main" = some (Json.obj m) → jlookup d "wind" = none →
      _get_weather d = .error .attributeError) ∧
    (∀ (d : JsonObj) (m wd : List (String × Json)),
      jlookup d "main" = some (Json.obj m) → jlookup d "wind" = some (Json.obj wd) →
      jlookup m "temp" = none → _get_weather d = .error .typeError) ∧
    (∀ (d : JsonObj) (m wd : List (String × Json)) (q : ℚ),
      jlookup d "main" = some (Json.obj m) → jlookup d "wind" = some (Json.obj wd) →
      jlookup m "temp" = some (Json.num q) → jlookup m "humidity" = none →
      _get_weather d = .error .typeError) ∧
    (∀ (d : JsonObj) (m wd : List (String × Json)) (q1 q2 : ℚ),
      jlookup d "main" = some (Json.obj m) → jlookup d "wind" = some (Json.obj wd) →
      jlookup m "temp" = some (Json.num q1) → jlookup m "humidity" = some (Json.num q2) →
      jlookup wd "speed" = none → _get_weather d = .error .typeError) := by
  refine ⟨?_, ?_, ?_, ?_, ?_⟩
  · intro d h
    simp [_get_weather, _processing_response, optGet, h, bind, Except.bind]
  · intro d m hm hw
    simp [_get_weather, _processing_response, optGet, hm, hw, bind, Except.bind]
  · intro d m wd hm hw ht
    simp [_get_weather, _processing_response, optGet, pyFloat, hm, hw, ht, bind, Except.bind,
      pure, Except.pure]
  · intro d m wd q hm hw ht hh
    simp [_get_weather, _processing_response, optGet, pyFloat, pyInt, hm, hw, ht, hh,
      bind, Except.bind, pure, Except.pure]
  · intro d m wd q1 q2 hm hw ht hh hs
    simp [_get_weather, _processing_response, optGet, pyFloat, pyInt, hm, hw, ht, hh, hs,
      bind, Except.bind, pure, Except.pure]

/-- C10 (witness): the five cases instantiated at concrete responses,
each missing exactly one expected field. -/
theorem c10_witness :
    _get_weather weatherNoMain = .error .attributeError ∧
    _get_weather weatherNoWind = .error .attributeError ∧
    _get_weather weatherNoTemp = .error .typeError ∧
    _get_weather weatherNoHumidity = .error .typeError ∧
    _get_weather weatherNoSpeed = .error .typeError :=
  ⟨c10_inner_missing.1 weatherNoMain rfl,
   c10_inner_missing.2.1 weatherNoWind _ rfl rfl,
   c10_inner_missing.2.2.1 weatherNoTemp _ _ rfl rfl rfl,
   c10_inner_missing.2.2.2.1 weatherNoHumidity _ _ 20 rfl rfl rfl rfl,
   c10_inner_missing.2.2.2.2 weatherNoSpeed _ _ 20 60 rfl rfl rfl rfl rfl⟩

/-- C8: if the underlying fetch fails (transport failure or parse
failure), `show_weather` writes nothing to standard output and
propagates the failure; output is produced only after a successful
fetch. -/
theorem c8_no_output_on_failure (city : String) (tr : TransportResult) (e : PyErr)
    (h : get_weather_of tr = .error e) :
    (show_weather city tr).1 = [] ∧ (show_weather city tr).2 = .error e := by
  unfold show_weather
  rw [h]
  exact ⟨rfl, rfl⟩

/-- C8 (witness): instantiated at a transport failure. -/
theorem c8_witness :
    get_weather_of (.error .transportError) = .error .transportError ∧
    (show_weather "Odessa" (.error .transportError)).1 = [] ∧
    (show_weather "Odessa" (.error .transportError)).2 = .error .transportError :=
  ⟨rfl, c8_no_output_on_failure "Odessa" (.error .transportError) .transportError rfl⟩

/-- C9: two consecutive fetch calls are independent: each call's result
is determined solely by its own request's transport outcome (response
payload), for the same or different city names, and no client state is
modified between the calls — for both `_get_weather` and
`get_forecast`. -/
theorem c9_call_independence :
    (∀ (s : ClientState) (c1 c1' c2 : String) (tr1 tr1' tr2 : TransportResult),
      (two_weather_calls s c1 c2 tr1 tr2).2 = (two_weather_calls s c1' c2 tr1' tr2).2) ∧
    (∀ (s : ClientState) (c1 c2 c2' : String) (tr1 tr2 tr2' : TransportResult),
      (two_weather_calls s c1 c2 tr1 tr2).1 = (two_weather_calls s c1 c2' tr1 tr2').1) ∧
    (∀ (s : ClientState) (c1 c2 : String) (tr1 tr2 : TransportResult),
      (two_weather_calls s c1 c2 tr1 tr2).1 = get_weather_of tr1 ∧
      (two_weather_calls s c1 c2 tr1 tr2).2 = get_weather_of tr2) ∧
    (∀ (off : Int) (s : ClientState) (c1 c1' c2 : String) (tr1 tr1' tr2 : TransportResult),
      (two_forecast_calls off s c1 c2 tr1 tr2).2 = (two_forecast_calls off s c1' c2 tr1' tr2).2) ∧
    (∀ (off : Int) (s : ClientState) (c1 c2 : String) (tr1 tr2 : TransportResult),
      (two_forecast_calls off s c1 c2 tr1 tr2).1 = tr1.bind (get_forecast off) ∧
      (two_forecast_calls off s c1 c2 tr1 tr2).2 = tr2.bind (get_forecast off)) :=
  ⟨fun _ _ _ _ _ _ _ => rfl, fun _ _ _ _ _ _ _ => rfl, fun _ _ _ _ _ => ⟨rfl, rfl⟩,
   fun _ _ _ _ _ _ _ _ => rfl, fun _ _ _ _ _ _ => ⟨rfl, rfl⟩⟩

theorem get_forecast_eq_convert (off : Int) (data : JsonObj) (entries : List Json)
    (hlist : jlookup data "list" = some (Json.arr entries)) :
    get_forecast off data = convertList off (entries.take 5) := by
  simp [get_forecast, hlist, bind, Except.bind]

theorem convertList_ok (off : Int) (l : List Json) (out : List ForecastEntry)
    (h : convertList off l = .ok out) :
    List.Forall₂ (fun e r => convEntry off e = .ok r) l out := by
  induction l generalizing out with
  | nil =>
    simp only [convertList, Except.ok.injEq] at h
    subst h
    exact List.Forall₂.nil
  | cons e es ih =>
    simp only [convertList, bind, Except.bind] at h
    cases h1 : convEntry off e with
    | error e1 => rw [h1] at h; simp at h
    | ok r =>
      rw [h1] at h
      dsimp only at h
      cases h2 : convertList off es with
      | error e2 => rw [h2] at h; simp at h
      | ok rs =>
        rw [h2] at h
        simp only [pure, Except.pure, Except.ok.injEq] at h
        subst h
        exact List.Forall₂.cons h1 (ih rs h2)

theorem convertList_error_at (off : Int) (pre : List Json) (bad : Json) (post : List Json)
    (hpre : ∀ p ∈ pre, ∃ r, convEntry off p = .ok r)
    (hbad : convEntry off bad = .error .keyError) :
    convertList off (pre ++ bad :: post) = .error .keyError := by
  induction pre with
  | nil =>
    simp only [List.nil_append, convertList, bind, Except.bind, hbad]
  | cons p ps ih =>
    obtain ⟨r, hr⟩ := hpre p (by simp)
    have := ih fun x hx => hpre x (by simp [hx])
    simp only [List.cons_append, convertList, bind, Except.bind, hr, List.append_eq, this]

theorem convEntry_ok_parts (off : Int) (e : Json) (r : ForecastEntry)
    (h : convEntry off e = .ok r) :
    (∃ c, r.date = dateFmt c) ∧
    rawField e "main" "temp" = .ok r.temp ∧
    rawField e "main" "humidity" = .ok r.humidity ∧
    rawField e "wind" "speed" = .ok r.wind_speed := by
  unfold convEntry at h
  simp only [bind, Except.bind, pure, Except.pure] at h
  cases h1 : pySubscript e "dt" with
  | error e1 => rw [h1] at h; simp at h
  | ok dtv =>
    rw [h1] at h
    dsimp only at h
    cases h2 : pyFromtimestamp off dtv with
    | error e2 => rw [h2] at h; simp at h
    | ok c =>
      rw [h2] at h
      dsimp only at h
      cases h3 : pySubscript e "main" with
      | error e3 => rw [h3] at h; simp at h
      | ok mainv =>
        rw [h3] at h
        dsimp only at h
        cases h4 : pySubscript mainv "temp" with
        | error e4 => rw [h4] at h; simp at h
        | ok tempv =>
          rw [h4] at h
          dsimp only at h
          cases h5 : pySubscript mainv "humidity" with
          | error e5 => rw [h5] at h; simp at h
          | ok humv =>
            rw [h5] at h
            dsimp only at h
            cases h6 : pySubscript e "wind" with
            | error e6 => rw [h6] at h; simp at h
            | ok windv =>
              rw [h6] at h
              dsimp only at h
              cases h7 : pySubscript windv "speed" with
              | error e7 => rw [h7] at h; simp at h
              | ok speedv =>
                rw [h7] at h
                simp only [Except.ok.injEq] at h
                subst h
                refine ⟨⟨c, rfl⟩, ?_, ?_, ?_⟩ <;>
                  simp [rawField, bind, Except.bind, h3, h4, h5, h6, h7]

theorem forall₂_mem_right {α β : Type} {P : α → β → Prop} {l : List α} {out : List β}
    (h : List.Forall₂ P l out) (r : β) (hr : r ∈ out) : ∃ e, P e r := by
  induction h with
  | nil => cases hr
  | cons hpair _ ih =>
    rcases List.mem_cons.mp hr with heq | hmem
    · subst heq
      exact ⟨_, hpair⟩
    · exact ih hmem

theorem convertList_total (off : Int) (l : List Json)
    (h : ∀ e ∈ l, ∃ r, convEntry off e = .ok r) :
    ∃ out, convertList off l = .ok out := by
  induction l with
  | nil => exact ⟨[], rfl⟩
  | cons e es ih =>
    obtain ⟨r, hr⟩ := h e (by simp)
    obtain ⟨out, hout⟩ := ih fun x hx => h x (by simp [hx])
    exact ⟨r :: out, by simp [convertList, bind, Except.bind, pure, Except.pure, hr, hout]⟩

/-- C2: for every forecast response whose `list` array has `n` entries,
each of whose first `min n 5` elements the loop body converts, the call
succeeds — no error, in particular none merely because `n < 5` — and
returns exactly `min n 5` entries, namely the conversions of the first
`min n 5` elements of `list` in their original upstream order, with no
padding. -/
theorem c2_first_five (off : Int) (data : JsonObj) (entries : List Json)
    (hlist : jlookup data "list" = some (Json.arr entries))
    (hconv : ∀ e ∈ entries.take 5, ∃ r, convEntry off e = .ok r) :
    ∃ out, get_forecast off data = .ok out ∧ out.length = min entries.length 5 ∧
      List.Forall₂ (fun e r => convEntry off e = .ok r) (entries.take 5) out := by
  obtain ⟨out, hout⟩ := convertList_total off (entries.take 5) hconv
  have hf := convertList_ok off _ _ hout
  have hl := List.Forall₂.length_eq hf
  simp only [List.length_take] at hl
  refine ⟨out, ?_, by omega, hf⟩
  rw [get_forecast_eq_convert off data entries hlist]
  exact hout

/-- C2 (witness): a 3-entry response succeeds with exactly 3 entries (no
padding, no error), and an 8-entry response succeeds with exactly the
first 5 entries, in order. -/
theorem c2_witness :
    (jlookup forecastResponse3 "list" = some (Json.arr forecastEntries3) ∧
      (∀ e ∈ forecastEntries3.take 5, ∃ r, convEntry 0 e = .ok r) ∧
      ∃ out, get_forecast 0 forecastResponse3 = .ok out ∧ out.length = 3 ∧
        List.Forall₂ (fun e r => convEntry 0 e = .ok r) (forecastEntries3.take 5) out) ∧
    (jlookup forecastResponse8 "list" = some (Json.arr forecastEntries8) ∧
      (∀ e ∈ forecastEntries8.take 5, ∃ r, convEntry 0 e = .ok r) ∧
      ∃ out, get_forecast 0 forecastResponse8 = .ok out ∧ out.length = 5 ∧
        List.Forall₂ (fun e r => convEntry 0 e = .ok r) (forecastEntries8.take 5) out) := by
  have hc3 : ∀ e ∈ forecastEntries3.take 5, ∃ r, convEntry 0 e = .ok r := by
    intro e he
    rw [show forecastEntries3.take 5 = forecastEntries3 from rfl] at he
    simp only [forecastEntries3, List.mem_cons, List.not_mem_nil, or_false] at he
    rcases he with rfl | rfl | rfl <;> exact ⟨_, rfl⟩
  have hc8 : ∀ e ∈ forecastEntries8.take 5, ∃ r, convEntry 0 e = .ok r := by
    intro e he
    rw [show forecastEntries8.take 5 =
        [forecastEntryJson 1726000000 20 50 3, forecastEntryJson 1726086400 21 51 4,
         forecastEntryJson 1726172800 22 52 5, forecastEntryJson 1726259200 23 53 6,
         forecastEntryJson 1726345600 24 54 7] from rfl] at he
    simp only [List.mem_cons, List.not_mem_nil, or_false] at he
    rcases he with rfl | rfl | rfl | rfl | rfl <;> exact ⟨_, rfl⟩
  refine ⟨⟨rfl, hc3, ?_⟩, ⟨rfl, hc8, ?_⟩⟩
  · obtain ⟨out, h1, h2, h3⟩ := c2_first_five 0 forecastResponse3 forecastEntries3 rfl hc3
    exact ⟨out, h1, by simpa using h2, h3⟩
  · obtain ⟨out, h1, h2, h3⟩ := c2_first_five 0 forecastResponse8 forecastEntries8 rfl hc8
    exact ⟨out, h1, by simpa using h2, h3⟩

theorem digit_ok : ∀ k : Nat, k < 10 → (digitChar10 k).isDigit = true := by decide

theorem dateShaped_dateFmt (c : Civil.Date) : dateShaped (dateFmt c) = true := by
  have d1 := digit_ok (c.1.toNat / 1000 % 10) (Nat.mod_lt _ (by norm_num))
  have d2 := digit_ok (c.1.toNat / 100 % 10) (Nat.mod_lt _ (by norm_num))
  have d3 := digit_ok (c.1.toNat / 10 % 10) (Nat.mod_lt _ (by norm_num))
  have d4 := digit_ok (c.1.toNat % 10) (Nat.mod_lt _ (by norm_num))
  have d5 := digit_ok (c.2.1.toNat / 10 % 10) (Nat.mod_lt _ (by norm_num))
  have d6 := digit_ok (c.2.1.toNat % 10) (Nat.mod_lt _ (by norm_num))
  have d7 := digit_ok (c.2.2.toNat / 10 % 10) (Nat.mod_lt _ (by norm_num))
  have d8 := digit_ok (c.2.2.toNat % 10) (Nat.mod_lt _ (by norm_num))
  simp [dateShaped, dateFmt, fmt4, fmt2, d1, d2, d3, d4, d5, d6, d7, d8]

/-- C6 (amended): every entry `get_forecast` returns has a `date` field
of the exact shape `YYYY-MM-DD`; the `temp`, `humidity` and `wind_speed`
fields are the upstream response values copied unchanged (no
`float()`/`int()` coercion), so they are floating point/integer exactly
when the response supplies numbers there. -/
theorem c6_amended (off : Int) (data : JsonObj) (entries : List Json)
    (out : List ForecastEntry)
    (hlist : jlookup data "list" = some (Json.arr entries))
    (hok : get_forecast off data = .ok out) :
    (∀ r ∈ out, dateShaped r.date = true) ∧
    List.Forall₂ (fun e r => rawField e "main" "temp" = .ok r.temp ∧
      rawField e "main" "humidity" = .ok r.humidity ∧
      rawField e "wind" "speed" = .ok r.wind_speed) (entries.take 5) out := by
  rw [get_forecast_eq_convert off data entries hlist] at hok
  have hf := convertList_ok off _ _ hok
  constructor
  · intro r hr
    obtain ⟨e, hconv⟩ := forall₂_mem_right hf r hr
    obtain ⟨⟨c, hdate⟩, -, -, -⟩ := convEntry_ok_parts off e r hconv
    rw [hdate]
    exact dateShaped_dateFmt c
  · exact hf.imp fun {e r} h =>
      ⟨(convEntry_ok_parts off e r h).2.1, (convEntry_ok_parts off e r h).2.2.1,
       (convEntry_ok_parts off e r h).2.2.2⟩

/-- C6 (counterexample): the claim fails as stated.  A forecast response
whose entry carries the string "hot" in `main.temp` is returned
successfully with that non-number in the `temp` field: `get_forecast`
performs no numeric coercion. -/
theorem c6_counterexample :
    (get_forecast 0 forecastStrTemp).map (List.map fun r => r.temp.isNumber) = .ok [false] := by
  rfl

/-- C6 (witness): the amended statement instantiated at the well-formed
8-entry response. -/
theorem c6_witness :
    jlookup forecastResponse8 "list" = some (Json.arr forecastEntries8) ∧
    get_forecast 0 forecastResponse8 = .ok forecastOut8 ∧
    ((∀ r ∈ forecastOut8, dateShaped r.date = true) ∧
      List.Forall₂ (fun e r => rawField e "main" "temp" = .ok r.temp ∧
        rawField e "main" "humidity" = .ok r.humidity ∧
        rawField e "wind" "speed" = .ok r.wind_speed)
        (forecastEntries8.take 5) forecastOut8) :=
  ⟨rfl, rfl, c6_amended 0 forecastResponse8 forecastEntries8 forecastOut8 rfl rfl⟩

theorem convEntry_dt_date (off : Int) (fields : JsonObj) (dtv : Json) (r : ForecastEntry)
    (hdt : jlookup fields "dt" = some dtv)
    (hok : convEntry off (Json.obj fields) = .ok r) :
    ∃ c, pyFromtimestamp off dtv = .ok c ∧ r.date = dateFmt c := by
  unfold convEntry at hok
  simp only [bind, Except.bind, pure, Except.pure] at hok
  have h1 : pySubscript (Json.obj fields) "dt" = .ok dtv := by
    simp [pySubscript, hdt]
  rw [h1] at hok
  dsimp only at hok
  cases h2 : pyFromtimestamp off dtv with
  | error e2 => rw [h2] at hok; simp at hok
  | ok c =>
    rw [h2] at hok
    dsimp only at hok
    refine ⟨c, rfl, ?_⟩
    cases h3 : pySubscript (Json.obj fields) "main" with
    | error e3 => rw [h3] at hok; simp at hok
    | ok mainv =>
      rw [h3] at hok
      dsimp only at hok
      cases h4 : pySubscript mainv "temp" with
      | error e4 => rw [h4] at hok; simp at hok
      | ok tempv =>
        rw [h4] at hok
        dsimp only at hok
        cases h5 : pySubscript mainv "humidity" with
        | error e5 => rw [h5] at hok; simp at hok
        | ok humv =>
          rw [h5] at hok
          dsimp only at hok
          cases h6 : pySubscript (Json.obj fields) "wind" with
          | error e6 => rw [h6] at hok; simp at hok
          | ok windv =>
            rw [h6] at hok
            dsimp only at hok
            cases h7 : pySubscript windv "speed" with
            | error e7 => rw [h7] at hok; simp at hok
            | ok speedv =>
              rw [h7] at hok
              simp only [Except.ok.injEq] at hok
              subst hok
              rfl

/-- C7: for a forecast entry with an integer `dt`, the produced entry's
date is the `strftime`-formatted civil date of the calendar day
containing the timestamp in the local time zone (offset `off`): the
day's first second is at or before `dt + off`, and its last second is
after. `daysFromCivil` is the day-number function written from the
calendar's definition, against which `civilFromDays` is verified. -/
theorem c7_date_contains_timestamp (off ts : Int) (fields : JsonObj) (r : ForecastEntry)
    (hdt : jlookup fields "dt" = some (Json.num ((ts : Int) : ℚ)))
    (hok : convEntry off (Json.obj fields) = .ok r) :
    ∃ c : Civil.Date, r.date = dateFmt c ∧
      86400 * Civil.daysFromCivil c ≤ ts + off ∧
      ts + off < 86400 * (Civil.daysFromCivil c + 1) := by
  obtain ⟨c, hts, hdate⟩ := convEntry_dt_date off fields _ r hdt hok
  unfold pyFromtimestamp at hts
  dsimp only at hts
  split at hts
  · exact absurd hts (by simp)
  · simp only [Except.ok.injEq] at hts
    have hday : dayOfTimestamp off ((ts : Int) : ℚ) = (ts + off) / 86400 := by
      unfold dayOfTimestamp
      rw [Rat.num_intCast, Rat.den_intCast]
      norm_num
    rw [hday] at hts
    subst hts
    have hrt := Civil.daysFromCivil_civilFromDays ((ts + off) / 86400)
    refine ⟨_, hdate, ?_, ?_⟩ <;> rw [hrt] <;> omega

/-- C7 (witness): instantiated at the timestamp 1726000000 with offset 0
(2024-09-10 UTC). -/
theorem c7_witness :
    jlookup c7fields "dt" = some (Json.num ((1726000000 : Int) : ℚ)) ∧
    convEntry 0 (Json.obj c7fields) = .ok c7out ∧
    (∃ c : Civil.Date, c7out.date = dateFmt c ∧
      86400 * Civil.daysFromCivil c ≤ 1726000000 + 0 ∧
      1726000000 + 0 < 86400 * (Civil.daysFromCivil c + 1)) :=
  ⟨rfl, rfl, c7_date_contains_timestamp 0 1726000000 c7fields c7out rfl rfl⟩

theorem entryMissingKey_keyError (off : Int) (e : Json)
    (h : entryMissingKey off e = true) : convEntry off e = .error .keyError := by
  cases e with
  | null => exact absurd h (by simp [entryMissingKey])
  | num q => exact absurd h (by simp [entryMissingKey])
  | str s => exact absurd h (by simp [entryMissingKey])
  | arr xs => exact absurd h (by simp [entryMissingKey])
  | obj fs =>
    rw [entryMissingKey] at h
    cases hdt : jlookup fs "dt" with
    | none =>
      simp [convEntry, pySubscript, hdt, bind, Except.bind]
    | some dtv =>
      rw [hdt] at h
      dsimp only at h
      rw [Bool.and_eq_true] at h
      obtain ⟨hts, hrest⟩ := h
      cases hpt : pyFromtimestamp off dtv with
      | error e1 => rw [hpt] at hts; simp [Except.toOption] at hts
      | ok c =>
        cases hm : jlookup fs "main" with
        | none => simp [convEntry, pySubscript, hdt, hm, hpt, bind, Except.bind]
        | some mv =>
          rw [hm] at hrest
          cases mv with
          | null => exact absurd hrest (by simp)
          | num q => exact absurd hrest (by simp)
          | str s => exact absurd hrest (by simp)
          | arr xs => exact absurd hrest (by simp)
          | obj m =>
            dsimp only at hrest
            cases ht : jlookup m "temp" with
            | none => simp [convEntry, pySubscript, hdt, hm, hpt, ht, bind, Except.bind]
            | some tv =>
              rw [ht] at hrest
              simp only [Option.isNone_some, Bool.false_or, Option.isSome_some,
                Bool.true_and] at hrest
              cases hh : jlookup m "humidity" with
              | none =>
                simp [convEntry, pySubscript, hdt, hm, hpt, ht, hh, bind, Except.bind]
              | some hv =>
                rw [hh] at hrest
                simp only [Option.isNone_some, Bool.false_or, Option.isSome_some,
                  Bool.true_and] at hrest
                cases hw : jlookup fs "wind" with
                | none =>
                  simp [convEntry, pySubscript, hdt, hm, hpt, ht, hh, hw, bind, Except.bind]
                | some wv =>
                  rw [hw] at hrest
                  cases wv with
                  | null => exact absurd hrest (by simp)
                  | num q => exact absurd hrest (by simp)
                  | str s => exact absurd hrest (by simp)
                  | arr xs => exact absurd hrest (by simp)
                  | obj wd =>
                    dsimp only at hrest
                    cases hs : jlookup wd "speed" with
                    | none =>
                      simp [convEntry, pySubscript, hdt, hm, hpt, ht, hh, hw, hs,
                        bind, Except.bind]
                    | some sv =>
                      rw [hs] at hrest
                      exact absurd hrest (by simp)

/-- C4: a malformed forecast response fails with a `LookupError`-class
condition (`KeyError`): when the `list` key is absent, and when an
entry among the first five is a dict lacking `dt`, `main`, `main.temp`,
`main.humidity`, `wind` or `wind.speed` (the earlier entries converting
successfully). -/
theorem c4_lookup_error (off : Int) :
    (∀ data : JsonObj, jlookup data "list" = none →
      get_forecast off data = .error .keyError ∧ PyErr.keyError.isLookupError = true) ∧
    (∀ (data : JsonObj) (entries pre post : List Json) (bad : Json),
      jlookup data "list" = some (Json.arr entries) →
      entries.take 5 = pre ++ bad :: post →
      (∀ p ∈ pre, ∃ r, convEntry off p = .ok r) →
      entryMissingKey off bad = true →
      get_forecast off data = .error .keyError ∧ PyErr.keyError.isLookupError = true) := by
  constructor
  · intro data h
    exact ⟨by simp [get_forecast, h, bind, Except.bind], rfl⟩
  · intro data entries pre post bad hlist htake hpre hbad
    refine ⟨?_, rfl⟩
    rw [get_forecast_eq_convert off data entries hlist, htake]
    exact convertList_error_at off pre bad post hpre (entryMissingKey_keyError off bad hbad)

/-- C4 (witness): instantiated at the empty response and at a response
whose second entry lacks `dt`. -/
theorem c4_witness :
    (jlookup ([] : JsonObj) "list" = none ∧
      get_forecast 0 ([] : JsonObj) = .error .keyError ∧
      PyErr.keyError.isLookupError = true) ∧
    (jlookup c4response "list" = some (Json.arr [c4goodEntry, c4badEntry]) ∧
      entryMissingKey 0 c4badEntry = true ∧
      get_forecast 0 c4response = .error .keyError) :=
  ⟨⟨rfl, (c4_lookup_error 0).1 [] rfl⟩,
   ⟨rfl, rfl,
    ((c4_lookup_error 0).2 c4response [c4goodEntry, c4badEntry] [c4goodEntry] [] c4badEntry
      rfl rfl
      (fun p hp => by
        rw [List.mem_singleton] at hp
        subst hp
        exact ⟨c4goodOut, rfl⟩)
      rfl).1⟩⟩
